import Mathlib

/-!
Verification of the automatic plant-watering controller
(src/PythonApplication1/PythonApplication1.py).

The program is a single polling loop: read a soil-moisture sensor, map the
raw reading to a percentage against two calibration constants, switch a
relay-driven pump on for a fixed time when the percentage is below a
threshold, sleep, repeat; a try/finally block guarantees the relay is
switched off (pin HIGH, active-low) on every exit path.

The embedding below translates the source functions directly:
* `normalize` is the body of `read_moisture_percentage` (lines 51-58),
  parametrised by the two calibration globals it reads; Python division
  raises `ZeroDivisionError` on a zero denominator, modelled as `none`.
* `control_pump` (lines 60-73) is modelled as the list of primitive
  effects it performs on the relay pin (GPIO outputs and sleeps).
* `main_iteration` / `iteration_actions` are one pass of the `while True`
  body of `main_loop` (lines 78-99); the loop body reads the sensor twice
  (line 80 via `read_moisture_percentage`, line 81 for the printed raw),
  so an iteration consumes two readings from the sensor stream.
* `run_with_cancellation` models `main_loop` under an external interrupt:
  an arbitrary prefix of the loop trace is executed, then the `finally`
  block appends `cleanup_actions` (lines 106-111).
-/

namespace Watering

/-- Calibration constant `MOISTURE_DRY` (line 15): raw reading in dry soil. -/
def MOISTURE_DRY : ℤ := 25000

/-- Calibration constant `MOISTURE_WET` (line 16): raw reading in wet soil. -/
def MOISTURE_WET : ℤ := 15000

/-- `THRESHOLD_PERCENT` (line 17): water when moisture is below 40%. -/
def THRESHOLD_PERCENT : ℚ := 40

/-- `PUMP_TIME_SEC` (line 18): pump run time per actuation. -/
def PUMP_TIME_SEC : ℚ := 3

/-- `CHECK_INTERVAL_SEC` (line 19): inter-poll sleep. -/
def CHECK_INTERVAL_SEC : ℚ := 60

/-- Digital level of the relay pin. The relay is active-low: `low` runs the
pump, `high` (the value written by `deactivate`) stops it. -/
inductive PinLevel
  | low
  | high
deriving DecidableEq, Repr

/-- Spec data model `ActuatorState`: `Idle` or `Active`. -/
inductive ActuatorState
  | Idle
  | Active
deriving DecidableEq, Repr

/-- The actuator state observable from the pin: active-low, so HIGH = Idle. -/
def stateOfPin : PinLevel → ActuatorState
  | PinLevel.high => ActuatorState.Idle
  | PinLevel.low => ActuatorState.Active

/-- Primitive effects performed by the program, in order: a GPIO write to
the relay pin, a timed sleep, a printed status line, or the final GPIO
resource release (`GPIO.cleanup()`). -/
inductive Action
  | output (level : PinLevel)
  | sleep (seconds : ℚ)
  | status (percent : ℚ) (raw : ℤ)
  | release
deriving DecidableEq

/-- Effect of one action on the relay pin: only GPIO writes change it. -/
def applyAction (p : PinLevel) : Action → PinLevel
  | Action.output l => l
  | _ => p

/-- Pin level after executing a list of actions from initial level `p`. -/
def finalPin (acts : List Action) (p : PinLevel) : PinLevel :=
  acts.foldl applyAction p

/-- `control_pump` (lines 60-73) as its list of effects. `state = true`
(`activate`): relay LOW, sleep `duration`, relay HIGH. `state = false`
(`deactivate`): relay HIGH. The Python default `duration=0` is passed
explicitly at the call sites below. -/
def control_pump (state : Bool) (duration : ℚ) : List Action :=
  if state then
    [Action.output PinLevel.low, Action.sleep duration, Action.output PinLevel.high]
  else
    [Action.output PinLevel.high]

/-- The normalization in `read_moisture_percentage` (lines 51-58),
parametrised by the calibration globals. Python floor/true division by a
zero denominator raises `ZeroDivisionError`, modelled as `none`; otherwise
the interpolation is clamped to [0, 100] by `max`/`min` exactly as in the
source. -/
def normalize (dryRaw wetRaw raw : ℤ) : Option ℚ :=
  if raw ≥ dryRaw then some 0
  else if raw ≤ wetRaw then some 100
  else if dryRaw - wetRaw = 0 then none
  else some (max 0 (min 100
    (((dryRaw - raw : ℤ) : ℚ) / ((dryRaw - wetRaw : ℤ) : ℚ) * 100)))

/-- `read_moisture_percentage` (lines 43-58) applied to the raw reading it
obtains from `channel.value`: the source function with its calibration
constants. -/
def read_moisture_percentage (raw : ℤ) : Option ℚ :=
  normalize MOISTURE_DRY MOISTURE_WET raw

/-- The status line printed each iteration (lines 84-86): moisture percent
and raw reading. -/
structure StatusLine where
  percent : ℚ
  raw : ℤ
deriving DecidableEq, Repr

/-- A call made to `control_pump` during an iteration. -/
inductive PumpCall
  | activate (duration : ℚ)
  | deactivate
deriving DecidableEq, Repr

/-- Observable outcome of one loop iteration: the emitted status line and
the pump calls made. -/
structure IterationResult where
  statusLine : StatusLine
  pumpCalls : List PumpCall
deriving DecidableEq, Repr

/-- One pass of the `while True` body of `main_loop` (lines 78-99).
`raw1` is the reading consumed inside `read_moisture_percentage`
(line 80/48); `raw2` is the second reading of `channel.value` (line 81)
that is printed as the raw value. A `none` moisture (division fault)
propagates. The decision (lines 89-94): pump for `PUMP_TIME_SEC` exactly
when `moisture < THRESHOLD_PERCENT`. -/
def main_iteration (raw1 raw2 : ℤ) : Option IterationResult :=
  (read_moisture_percentage raw1).map fun moisture =>
    { statusLine := { percent := moisture, raw := raw2 }
      pumpCalls :=
        if moisture < THRESHOLD_PERCENT then [PumpCall.activate PUMP_TIME_SEC]
        else [] }

/-- One iteration consuming its sensor readings from the front of a stream,
returning the unconsumed remainder: the loop body takes the first two
readings of the stream. -/
def main_iteration_stream (stream : List ℤ) :
    Option (IterationResult × List ℤ) :=
  match stream with
  | raw1 :: raw2 :: rest => (main_iteration raw1 raw2).map fun res => (res, rest)
  | _ => none

/-- Modelled from the spec: the iteration as §4.4 describes it — a single
fresh `SensorReading` per poll, with both the percent and the raw of the
status observation derived from that one reading. Used only to compare
with `main_iteration_stream` (claim C3); the source is `main_iteration`. -/
def spec_iteration_stream (stream : List ℤ) :
    Option (IterationResult × List ℤ) :=
  match stream with
  | raw :: rest =>
      (read_moisture_percentage raw).map fun moisture =>
        ({ statusLine := { percent := moisture, raw := raw }
           pumpCalls :=
             if moisture < THRESHOLD_PERCENT then [PumpCall.activate PUMP_TIME_SEC]
             else [] },
         rest)
  | _ => none

/-- The effect trace of one pass of the loop body (lines 78-99): status
print, conditional pump actuation, inter-poll sleep. A division fault
(`none`) ends the iteration with no further effects (the exception
propagates out of the loop). -/
def iteration_actions (raw1 raw2 : ℤ) : List Action :=
  match read_moisture_percentage raw1 with
  | none => []
  | some moisture =>
      Action.status moisture raw2 ::
        ((if moisture < THRESHOLD_PERCENT then control_pump true PUMP_TIME_SEC
          else []) ++
          [Action.sleep CHECK_INTERVAL_SEC])

/-- Effect trace of the first `k` iterations of `main_loop`, reading the
sensor stream `sensor` (two reads per iteration). -/
def main_loop_actions (sensor : ℕ → ℤ) : ℕ → List Action
  | 0 => []
  | Nat.succ k =>
      main_loop_actions sensor k ++
        iteration_actions (sensor (2 * k)) (sensor (2 * k + 1))

/-- `cleanup` (lines 106-111): `control_pump(False)` then `GPIO.cleanup()`. -/
def cleanup_actions : List Action :=
  control_pump false 0 ++ [Action.release]

/-- `main_loop` under cancellation: the interrupt (e.g. KeyboardInterrupt,
possibly mid-sleep) cuts the loop trace after `m` primitive actions of the
first `k` iterations; the `finally` block (line 103) then runs `cleanup`
on that exit path, whatever `m` is. -/
def run_with_cancellation (sensor : ℕ → ℤ) (k m : ℕ) : List Action :=
  (main_loop_actions sensor k).take m ++ cleanup_actions

/-! ### Helper lemmas -/

/-- `finalPin` distributes over concatenation of action lists. -/
theorem finalPin_append (xs ys : List Action) (p : PinLevel) :
    finalPin (xs ++ ys) p = finalPin ys (finalPin xs p) :=
  List.foldl_append applyAction p xs ys

/-- After the teardown actions, the relay pin is HIGH regardless of its
earlier level: `cleanup` writes HIGH and `GPIO.cleanup` does not drive it. -/
theorem finalPin_cleanup (p : PinLevel) :
    finalPin cleanup_actions p = PinLevel.high :=
  rfl

/-- In the strict interior of the calibration interval the source takes the
interpolation branch, the clamp is the identity, and the value is strictly
between 0 and 100. -/
theorem normalize_between (dryRaw wetRaw r : ℤ) (hw : wetRaw < dryRaw)
    (h1 : wetRaw < r) (h2 : r < dryRaw) :
    Watering.normalize dryRaw wetRaw r =
      some (((dryRaw - r : ℤ) : ℚ) / ((dryRaw - wetRaw : ℤ) : ℚ) * 100) ∧
    0 < ((dryRaw - r : ℤ) : ℚ) / ((dryRaw - wetRaw : ℤ) : ℚ) * 100 ∧
    ((dryRaw - r : ℤ) : ℚ) / ((dryRaw - wetRaw : ℤ) : ℚ) * 100 < 100 := by
  have hden : (0 : ℚ) < ((dryRaw - wetRaw : ℤ) : ℚ) := by
    exact_mod_cast sub_pos.mpr hw
  have hnum : (0 : ℚ) < ((dryRaw - r : ℤ) : ℚ) := by
    exact_mod_cast sub_pos.mpr h2
  have hlt : ((dryRaw - r : ℤ) : ℚ) < ((dryRaw - wetRaw : ℤ) : ℚ) := by
    exact_mod_cast sub_lt_sub_left h1 dryRaw
  have hv0 : 0 < ((dryRaw - r : ℤ) : ℚ) / ((dryRaw - wetRaw : ℤ) : ℚ) * 100 :=
    mul_pos (div_pos hnum hden) (by norm_num)
  have hv100 :
      ((dryRaw - r : ℤ) : ℚ) / ((dryRaw - wetRaw : ℤ) : ℚ) * 100 < 100 := by
    have hratio : ((dryRaw - r : ℤ) : ℚ) / ((dryRaw - wetRaw : ℤ) : ℚ) < 1 :=
      (div_lt_one hden).mpr hlt
    calc ((dryRaw - r : ℤ) : ℚ) / ((dryRaw - wetRaw : ℤ) : ℚ) * 100
        < 1 * 100 := by
          exact mul_lt_mul_of_pos_right hratio (by norm_num)
      _ = 100 := one_mul 100
  have hb1 : ¬ (r ≥ dryRaw) := not_le.mpr h2
  have hb2 : ¬ (r ≤ wetRaw) := not_le.mpr h1
  have hb3 : ¬ (dryRaw - wetRaw = 0) := sub_ne_zero.mpr (ne_of_gt hw)
  refine ⟨?_, hv0, hv100⟩
  rw [Watering.normalize, if_neg hb1, if_neg hb2, if_neg hb3,
    min_eq_right (le_of_lt hv100), max_eq_right (le_of_lt hv0)]

/-! ### Claims -/

/-- Claim C1: whenever an external stop signal interrupts the control loop —
after any number `m` of primitive effects of any number `k` of iterations,
which covers interruption between the relay-on write and the relay-off
write of an actuation, mid actuation-sleep, and mid inter-poll sleep — the
`finally` teardown appended on that exit path runs `deactivate`, so the
relay pin ends HIGH and the actuator is Idle at process exit, from any
prior pin level and for any sensor stream. -/
theorem cancellation_forces_pump_off (sensor : ℕ → ℤ) (k m : ℕ) (p : PinLevel) :
    finalPin (run_with_cancellation sensor k m) p = PinLevel.high ∧
    stateOfPin (finalPin (run_with_cancellation sensor k m) p) =
      ActuatorState.Idle := by
  have h : finalPin (run_with_cancellation sensor k m) p = PinLevel.high := by
    rw [run_with_cancellation, finalPin_append]
    exact finalPin_cleanup _
  refine ⟨h, ?_⟩
  rw [h]
  rfl

/-- Claim C2: in any iteration whose moisture percent is `moisture`, the
pump is activated exactly once with duration `PUMP_TIME_SEC` when
`moisture < THRESHOLD_PERCENT`, and not at all when
`THRESHOLD_PERCENT ≤ moisture`. -/
theorem decision_threshold (raw1 raw2 : ℤ) (moisture : ℚ)
    (h : read_moisture_percentage raw1 = some moisture) :
    ∃ res, main_iteration raw1 raw2 = some res ∧
      (moisture < THRESHOLD_PERCENT →
        res.pumpCalls = [PumpCall.activate PUMP_TIME_SEC]) ∧
      (THRESHOLD_PERCENT ≤ moisture → res.pumpCalls = []) := by
  refine ⟨{ statusLine := { percent := moisture, raw := raw2 }
            pumpCalls :=
              if moisture < THRESHOLD_PERCENT then
                [PumpCall.activate PUMP_TIME_SEC]
              else [] }, ?_, ?_, ?_⟩
  · rw [main_iteration, h]
    rfl
  · intro hlt
    simp only [if_pos hlt]
  · intro hge
    simp only [if_neg (not_lt.mpr hge)]

/-- Witness for C2 at a dry reading: raw 24000 gives moisture 10, which is
below the 40% threshold, so the activation branch applies. -/
theorem decision_threshold_witness :
    ∃ res, main_iteration 24000 123 = some res ∧
      ((10 : ℚ) < THRESHOLD_PERCENT →
        res.pumpCalls = [PumpCall.activate PUMP_TIME_SEC]) ∧
      (THRESHOLD_PERCENT ≤ (10 : ℚ) → res.pumpCalls = []) :=
  decision_threshold 24000 123 10
    (by norm_num [read_moisture_percentage, Watering.normalize, MOISTURE_DRY,
      MOISTURE_WET, min_def, max_def])

/-- Claim C3 fails on the code: with sensor stream `[25000, 0]` one
iteration consumes both readings (remainder `[]`), derives percent `0`
from the first reading `25000`, and emits raw `0` from the second; the
percent a single shared reading would force for raw `0` is `100 ≠ 0`, and
the spec-modelled single-reading iteration produces a different status and
consumes only one reading. -/
theorem single_reading_counterexample :
    main_iteration_stream [25000, 0] =
        some ({ statusLine := { percent := 0, raw := 0 }
                pumpCalls := [PumpCall.activate PUMP_TIME_SEC] }, []) ∧
    read_moisture_percentage 0 = some 100 ∧
    ((0 : ℚ) ≠ 100) ∧
    spec_iteration_stream [25000, 0] =
        some ({ statusLine := { percent := 0, raw := 25000 }
                pumpCalls := [PumpCall.activate PUMP_TIME_SEC] }, [0]) := by
  refine ⟨?_, ?_, by norm_num, ?_⟩
  · norm_num [main_iteration_stream, main_iteration, read_moisture_percentage,
      Watering.normalize, MOISTURE_DRY, MOISTURE_WET, THRESHOLD_PERCENT,
      PUMP_TIME_SEC]
  · norm_num [read_moisture_percentage, Watering.normalize, MOISTURE_DRY,
      MOISTURE_WET]
  · norm_num [spec_iteration_stream, read_moisture_percentage,
      Watering.normalize, MOISTURE_DRY, MOISTURE_WET, THRESHOLD_PERCENT,
      PUMP_TIME_SEC]

/-- Claim C3 as amended: each loop iteration obtains two fresh readings;
the moisture percent derives from the first and the emitted raw value from
the second, with the rest of the stream untouched. -/
theorem two_readings_per_iteration (raw1 raw2 : ℤ) (rest : List ℤ)
    (moisture : ℚ) (h : read_moisture_percentage raw1 = some moisture) :
    ∃ res, main_iteration_stream (raw1 :: raw2 :: rest) = some (res, rest) ∧
      res.statusLine.percent = moisture ∧ res.statusLine.raw = raw2 := by
  refine ⟨{ statusLine := { percent := moisture, raw := raw2 }
            pumpCalls :=
              if moisture < THRESHOLD_PERCENT then
                [PumpCall.activate PUMP_TIME_SEC]
              else [] }, ?_, rfl, rfl⟩
  rw [main_iteration_stream, main_iteration, h]
  rfl

/-- Witness for the amended C3: stream `24000 :: 7 :: []`, moisture 10. -/
theorem two_readings_per_iteration_witness :
    ∃ res, main_iteration_stream (24000 :: 7 :: []) = some (res, []) ∧
      res.statusLine.percent = 10 ∧ res.statusLine.raw = 7 :=
  two_readings_per_iteration 24000 7 [] 10
    (by norm_num [read_moisture_percentage, Watering.normalize, MOISTURE_DRY,
      MOISTURE_WET, min_def, max_def])

/-- Claim C4: with degenerate calibration `dryRaw = wetRaw` the first two
branches of `normalize` cover every raw reading, so the division branch is
never reached: the function returns a defined value for every input and no
division fault occurs. -/
theorem normalize_degenerate_welldefined (dryRaw wetRaw raw : ℤ)
    (h : dryRaw = wetRaw) :
    ∃ v, Watering.normalize dryRaw wetRaw raw = some v := by
  subst h
  by_cases hle : dryRaw ≤ raw
  · exact ⟨0, by simp [Watering.normalize, ge_iff_le, hle]⟩
  · refine ⟨100, ?_⟩
    have h2 : raw ≤ dryRaw := le_of_lt (not_le.mp hle)
    simp [Watering.normalize, ge_iff_le, hle, h2]

/-- Witness for C4 at `dryRaw = wetRaw = 15000`, raw 15000. -/
theorem normalize_degenerate_welldefined_witness :
    ∃ v, Watering.normalize 15000 15000 15000 = some v :=
  normalize_degenerate_welldefined 15000 15000 15000 rfl

/-- Claim C5: every raw reading at or above the dry calibration point
normalizes to 0 (the first branch of `read_moisture_percentage`), for any
calibration pair. -/
theorem normalize_dry_zero (dryRaw wetRaw raw : ℤ) (h : dryRaw ≤ raw) :
    Watering.normalize dryRaw wetRaw raw = some 0 := by
  simp [Watering.normalize, ge_iff_le, h]

/-- Witness for C5 at the source calibration with raw 30000. -/
theorem normalize_dry_zero_witness :
    Watering.normalize MOISTURE_DRY MOISTURE_WET 30000 = some 0 :=
  normalize_dry_zero MOISTURE_DRY MOISTURE_WET 30000
    (by norm_num [MOISTURE_DRY])

/-- Claim C6: under the calibration invariant `wetRaw < dryRaw` (§3 of the
spec, satisfied by the source constants), every raw reading at or below
the wet calibration point normalizes to 100 (the second branch). -/
theorem normalize_wet_hundred (dryRaw wetRaw raw : ℤ) (hw : wetRaw < dryRaw)
    (h : raw ≤ wetRaw) :
    Watering.normalize dryRaw wetRaw raw = some 100 := by
  have hb : ¬ (dryRaw ≤ raw) := not_le.mpr (lt_of_le_of_lt h hw)
  simp [Watering.normalize, ge_iff_le, hb, h]

/-- Witness for C6 at the source calibration with raw 10000. -/
theorem normalize_wet_hundred_witness :
    Watering.normalize MOISTURE_DRY MOISTURE_WET 10000 = some 100 :=
  normalize_wet_hundred MOISTURE_DRY MOISTURE_WET 10000
    (by norm_num [MOISTURE_DRY, MOISTURE_WET])
    (by norm_num [MOISTURE_WET])

/-- Claim C7: with `wetRaw < dryRaw`, on readings strictly between the
calibration points `normalize` is defined, monotonically non-increasing in
the raw reading, and strictly between 0 and 100. -/
theorem normalize_between_mono (dryRaw wetRaw r1 r2 : ℤ)
    (hw : wetRaw < dryRaw) (h1 : wetRaw < r1) (h12 : r1 ≤ r2)
    (h2 : r2 < dryRaw) :
    ∃ v1 v2, Watering.normalize dryRaw wetRaw r1 = some v1 ∧
      Watering.normalize dryRaw wetRaw r2 = some v2 ∧
      v2 ≤ v1 ∧ 0 < v1 ∧ v1 < 100 ∧ 0 < v2 ∧ v2 < 100 := by
  obtain ⟨e1, p1, b1⟩ :=
    normalize_between dryRaw wetRaw r1 hw h1 (lt_of_le_of_lt h12 h2)
  obtain ⟨e2, p2, b2⟩ :=
    normalize_between dryRaw wetRaw r2 hw (lt_of_lt_of_le h1 h12) h2
  refine ⟨_, _, e1, e2, ?_, p1, b1, p2, b2⟩
  have hden : (0 : ℚ) < ((dryRaw - wetRaw : ℤ) : ℚ) := by
    exact_mod_cast sub_pos.mpr hw
  have hnum : ((dryRaw - r2 : ℤ) : ℚ) ≤ ((dryRaw - r1 : ℤ) : ℚ) := by
    exact_mod_cast sub_le_sub_left h12 dryRaw
  have hdiv : ((dryRaw - r2 : ℤ) : ℚ) / ((dryRaw - wetRaw : ℤ) : ℚ) ≤
      ((dryRaw - r1 : ℤ) : ℚ) / ((dryRaw - wetRaw : ℤ) : ℚ) :=
    (div_le_div_iff_of_pos_right hden).mpr hnum
  exact mul_le_mul_of_nonneg_right hdiv (by norm_num)

/-- Witness for C7 at the source calibration, readings 18000 ≤ 20000. -/
theorem normalize_between_mono_witness :
    ∃ v1 v2, Watering.normalize 25000 15000 18000 = some v1 ∧
      Watering.normalize 25000 15000 20000 = some v2 ∧
      v2 ≤ v1 ∧ 0 < v1 ∧ v1 < 100 ∧ 0 < v2 ∧ v2 < 100 :=
  normalize_between_mono 25000 15000 18000 20000 (by norm_num) (by norm_num)
    (by norm_num) (by norm_num)

/-- Claim C8: for every duration `d ≥ 0`, `activate d` = `control_pump true d`
performs exactly relay-on, sleep `d`, relay-off, and on return the relay
pin is HIGH and the actuator is Idle, from any prior pin level. -/
theorem activate_returns_pump_off (d : ℚ) (p : PinLevel) (hd : 0 ≤ d) :
    control_pump true d =
      [Action.output PinLevel.low, Action.sleep d,
        Action.output PinLevel.high] ∧
    finalPin (control_pump true d) p = PinLevel.high ∧
    stateOfPin (finalPin (control_pump true d) p) = ActuatorState.Idle :=
  ⟨rfl, rfl, rfl⟩

/-- Witness for C8 at the configured duration `PUMP_TIME_SEC = 3`, starting
with the pump running. -/
theorem activate_returns_pump_off_witness :
    control_pump true 3 =
      [Action.output PinLevel.low, Action.sleep 3,
        Action.output PinLevel.high] ∧
    finalPin (control_pump true 3) PinLevel.low = PinLevel.high ∧
    stateOfPin (finalPin (control_pump true 3) PinLevel.low) =
      ActuatorState.Idle :=
  activate_returns_pump_off 3 PinLevel.low (by norm_num)

/-- Claim C9: `deactivate` = `control_pump false` is idempotent — from any
pin level, applying it twice leaves the same HIGH ("off") level as
applying it once — it is safe when the pin is already HIGH (Idle), and it
always leaves the actuator Idle. -/
theorem deactivate_idempotent (p : PinLevel) :
    finalPin (control_pump false 0) (finalPin (control_pump false 0) p) =
      finalPin (control_pump false 0) p ∧
    finalPin (control_pump false 0) PinLevel.high = PinLevel.high ∧
    stateOfPin (finalPin (control_pump false 0) p) = ActuatorState.Idle :=
  ⟨rfl, rfl, rfl⟩

/-- Claim C10: with inverted or degenerate calibration `dryRaw ≤ wetRaw`
the two clamp branches cover every raw reading, so `normalize` returns
exactly 0 (when `dryRaw ≤ raw`) or exactly 100 (otherwise): the result is
defined, lies in [0, 100], and the division branch is unreachable. -/
theorem normalize_inverted_calibration (dryRaw wetRaw raw : ℤ)
    (h : dryRaw ≤ wetRaw) :
    Watering.normalize dryRaw wetRaw raw =
      some (if dryRaw ≤ raw then (0 : ℚ) else 100) := by
  by_cases hle : dryRaw ≤ raw
  · simp [Watering.normalize, ge_iff_le, hle]
  · have h2 : raw ≤ wetRaw := le_of_lt (lt_of_lt_of_le (not_le.mp hle) h)
    simp [Watering.normalize, ge_iff_le, hle, h2]

/-- Witness for C10 with inverted calibration 15000/25000 at raw 20000. -/
theorem normalize_inverted_calibration_witness :
    Watering.normalize 15000 25000 20000 =
      some (if (15000 : ℤ) ≤ 20000 then (0 : ℚ) else 100) :=
  normalize_inverted_calibration 15000 25000 20000 (by norm_num)

end Watering
